import Mathlib

/-!
Shallow embedding of the apiverve zipdemographics API client wrappers:
the npm binding (src/npm/index.js), the nuget binding and the java
binding (both in src/nuget/ZIPDemographicsAPIClient.cs).  The embedding
covers API-key validation, the schema-driven parameter validator, GET
URL construction with percent encoding, the npm execute control flow,
and the nuget retry loop with transient-error classification.
-/

namespace ZipDemo

/-! ## Character and string helpers -/

/-- ASCII whitespace, modelling the characters stripped by JS trim and
C# Trim that can actually appear in API keys and parameters. -/
def isWsChar (c : Char) : Bool :=
  c == ' ' || c == '\t' || c == '\n' || c == '\r'

/-- Strip leading and trailing whitespace from a character list. -/
def trimChars (cs : List Char) : List Char :=
  ((cs.dropWhile isWsChar).reverse.dropWhile isWsChar).reverse

/-- Emptiness of a string, via its character list (models JS falsiness of
the empty string and C# String.IsNullOrEmpty on a non-null string). -/
def strIsEmpty (s : String) : Bool := s.data.isEmpty

/-- Split a character list on a separator character; mirrors
String.prototype.split in JS and string splitting used for parsing. -/
def splitOnChar (sep : Char) (cs : List Char) : List (List Char) :=
  cs.foldr
    (fun c acc =>
      match acc with
      | cur :: done => if c = sep then [] :: cur :: done else (c :: cur) :: done
      | [] => [[c]])
    [[]]

def digitVal (c : Char) : Nat := c.toNat - 48

def allDigits (cs : List Char) : Bool := (!cs.isEmpty) && cs.all Char.isDigit

def digitsToNat (cs : List Char) : Nat :=
  cs.foldl (fun acc c => acc * 10 + digitVal c) 0

/-- Decimal parser shared by the models of JS Number(string) and C#
double.TryParse: optional sign, then digits with at most one decimal
point and at least one digit overall.  Exponents, hex literals and
Infinity are not modelled; no claim exercises them. -/
def parseDecimalCore (cs : List Char) : Option Rat :=
  let signBody : Int × List Char :=
    match cs with
    | c :: rest => if c = '-' then (-1, rest) else if c = '+' then (1, rest) else (1, cs)
    | [] => (1, cs)
  match splitOnChar '.' signBody.2 with
  | [ip] =>
    if allDigits ip then some ((signBody.1 : Rat) * (digitsToNat ip : Rat)) else none
  | [ip, fp] =>
    if ip.isEmpty && fp.isEmpty then none
    else if ip.all Char.isDigit && fp.all Char.isDigit then
      some ((signBody.1 : Rat) *
        ((digitsToNat ip : Rat) + (digitsToNat fp : Rat) / ((10 : Rat) ^ fp.length)))
    else none
  | _ => none

/-- Model of JS Number(string): the empty or all-whitespace string
coerces to 0, otherwise decimal parsing (NaN becomes none). -/
def jsParseNumber (s : String) : Option Rat :=
  let t := trimChars s.data
  if t.isEmpty then some 0 else parseDecimalCore t

/-- Model of C# double.TryParse: whitespace is trimmed and the empty
string fails to parse (unlike JS Number). -/
def csParseDouble (s : String) : Option Rat :=
  let t := trimChars s.data
  if t.isEmpty then none else parseDecimalCore t

/-! ## JS value model (npm binding) -/

/-- Values a caller can put into the npm parameter bag. Arrays carry
their elements; objects other than arrays never appear in the claims. -/
inductive JValue where
  | undefV
  | nullV
  | str (s : String)
  | num (q : Rat)
  | boolV (b : Bool)
  | arrV (elems : List JValue)

/-- JS strict equality on the primitive values used by the validator;
arrays compare by reference in JS, so distinct array literals are never
equal and the model returns false for them. -/
def jsStrictEq : JValue → JValue → Bool
  | .str a, .str b => a == b
  | .num a, .num b => a == b
  | .boolV a, .boolV b => a == b
  | .nullV, .nullV => true
  | .undefV, .undefV => true
  | _, _ => false

/-- The absence test of the required check in src/npm/index.js line 54:
value === undefined || value === null || value === ''. -/
def jsIsAbsent : JValue → Bool
  | .undefV => true
  | .nullV => true
  | .str s => strIsEmpty s
  | _ => false

/-- The skip test of src/npm/index.js line 60: value === undefined ||
value === null (note: the empty string is NOT included here). -/
def jsIsNullish : JValue → Bool
  | .undefV => true
  | .nullV => true
  | _ => false

/-- JS String() coercion for the values the validator stringifies.
Non-integer number rendering and array joining are not exercised by any
claim and are given placeholder renderings. -/
def jsToString : JValue → String
  | .str s => s
  | .num q => if q.den = 1 then toString q.num else toString q
  | .boolV b => if b then "true" else "false"
  | .nullV => "null"
  | .undefV => "undefined"
  | .arrV _ => ""

/-- JS Number() coercion as used by the npm validator type check. -/
def jsToNumber : JValue → Option Rat
  | .num q => some q
  | .str s => jsParseNumber s
  | .boolV b => some (if b then 1 else 0)
  | .nullV => some 0
  | .undefV => none
  | .arrV _ => none

/-! ## Format patterns (shared verbatim across the npm, nuget and java
bindings) — hand-compiled from the anchored regular expressions of
src/npm/index.js lines 100-106. -/

def isHexDigitChar (c : Char) : Bool :=
  c.isDigit || ('a' ≤ c && c ≤ 'f') || ('A' ≤ c && c ≤ 'F')

/-- Character class of the email pattern, excluding whitespace and the
at sign. -/
def noSpaceNoAt (c : Char) : Bool := !(c == '@' || isWsChar c)

/-- Matches the anchored email pattern: one at sign separating non-empty
chunks, with a dot strictly inside the domain part. -/
def emailMatches (cs : List Char) : Bool :=
  match splitOnChar '@' cs with
  | [user, domain] =>
    (!user.isEmpty) && user.all noSpaceNoAt &&
      (!domain.isEmpty) && domain.all noSpaceNoAt &&
      ((domain.drop 1).dropLast.contains '.')
  | _ => false

def toLowerList (cs : List Char) : List Char := cs.map Char.toLower

def hasPrefixChars : List Char → List Char → Bool
  | [], _ => true
  | _ :: _, [] => false
  | p :: ps, c :: cs => p == c && hasPrefixChars ps cs

/-- Matches the url pattern, case-insensitive: http or https scheme
followed by at least one further character. -/
def urlMatches (cs : List Char) : Bool :=
  let l := toLowerList cs
  (hasPrefixChars "http://".data l && 7 < l.length) ||
    (hasPrefixChars "https://".data l && 8 < l.length)

/-- Matches one dotted-quad octet alternative of the ip pattern. -/
def ipv4Octet (cs : List Char) : Bool :=
  match cs with
  | [a] => a.isDigit
  | [a, b] => a.isDigit && b.isDigit
  | [a, b, c] =>
    (a == '2' && b == '5' && '0' ≤ c && c ≤ '5') ||
      (a == '2' && '0' ≤ b && b ≤ '4' && c.isDigit) ||
      ((a == '0' || a == '1') && b.isDigit && c.isDigit)
  | _ => false

/-- Matches the ip pattern: IPv4 dotted quad, or full (8-group) IPv6. -/
def ipMatches (cs : List Char) : Bool :=
  (match splitOnChar '.' cs with
   | [a, b, c, d] => ipv4Octet a && ipv4Octet b && ipv4Octet c && ipv4Octet d
   | _ => false) ||
  (let gs := splitOnChar ':' cs
   gs.length == 8 && gs.all fun g => (1 ≤ g.length && g.length ≤ 4) && g.all isHexDigitChar)

/-- Matches the date pattern: exactly dddd-dd-dd. -/
def dateMatches (cs : List Char) : Bool :=
  match cs with
  | [y1, y2, y3, y4, h1, m1, m2, h2, d1, d2] =>
    y1.isDigit && y2.isDigit && y3.isDigit && y4.isDigit && h1 == '-' &&
      m1.isDigit && m2.isDigit && h2 == '-' && d1.isDigit && d2.isDigit
  | _ => false

/-- Matches the hexColor pattern: optional hash, then 3 or 6 hex digits. -/
def hexColorMatches (cs : List Char) : Bool :=
  let body := match cs with
    | '#' :: rest => rest
    | _ => cs
  (body.length == 3 || body.length == 6) && body.all isHexDigitChar

/-- Dispatch on the format name.  An unknown name yields none, matching
the source where a missing formatPatterns entry skips the check. -/
def formatMatches (fmt : String) (s : String) : Option Bool :=
  if fmt = "email" then some (emailMatches s.data)
  else if fmt = "url" then some (urlMatches s.data)
  else if fmt = "ip" then some (ipMatches s.data)
  else if fmt = "date" then some (dateMatches s.data)
  else if fmt = "hexColor" then some (hexColorMatches s.data)
  else none

/-! ## npm validator (src/npm/index.js, validateParams) -/

/-- One validation rule of the npm binding, field for field. -/
structure JRule where
  type : String := "string"
  required : Bool := false
  minLength : Option Nat := none
  maxLength : Option Nat := none
  min : Option Rat := none
  max : Option Rat := none
  format : Option String := none
  enumVals : Option (List JValue) := none

/-- Per-rule body of validateParams in src/npm/index.js (lines 50-127),
returning the violation messages this rule contributes.  The source
continue statements that skip the enum check (number coercion failure,
non-whole integer, non-string value for a string rule) are modelled by
the second component of typeStep; the required-missing and
undefined/null continues return before the type checks, as in the
source. -/
def npmValidateRule (paramName : String) (rule : JRule) (value : JValue) : List String :=
  if rule.required && jsIsAbsent value then
    ["Required parameter [" ++ paramName ++ "] is missing."]
  else if jsIsNullish value then []
  else
    let typeStep : List String × Bool :=
      if rule.type = "integer" || rule.type = "number" then
        match jsToNumber value with
        | none => (["Parameter [" ++ paramName ++ "] must be a valid " ++ rule.type ++ "."], true)
        | some q =>
          if rule.type = "integer" && q.den ≠ 1 then
            (["Parameter [" ++ paramName ++ "] must be an integer."], true)
          else
            ((match rule.min with
              | some m =>
                if q < m then
                  ["Parameter [" ++ paramName ++ "] must be at least " ++ jsToString (.num m) ++ "."]
                else []
              | none => []) ++
             (match rule.max with
              | some m =>
                if m < q then
                  ["Parameter [" ++ paramName ++ "] must be at most " ++ jsToString (.num m) ++ "."]
                else []
              | none => []), false)
      else if rule.type = "string" then
        match value with
        | .str s =>
          ((match rule.minLength with
            | some n =>
              if s.length < n then
                ["Parameter [" ++ paramName ++ "] must be at least " ++ toString n ++ " characters."]
              else []
            | none => []) ++
           (match rule.maxLength with
            | some n =>
              if n < s.length then
                ["Parameter [" ++ paramName ++ "] must be at most " ++ toString n ++ " characters."]
              else []
            | none => []) ++
           (match rule.format with
            | some fmt =>
              match formatMatches fmt s with
              | some ok =>
                if ok then [] else ["Parameter [" ++ paramName ++ "] must be a valid " ++ fmt ++ "."]
              | none => []
            | none => []), false)
        | _ => (["Parameter [" ++ paramName ++ "] must be a string."], true)
      else if rule.type = "boolean" then
        ((match value with
          | .boolV _ => []
          | .str s => if s = "true" || s = "false" then []
              else ["Parameter [" ++ paramName ++ "] must be a boolean."]
          | _ => ["Parameter [" ++ paramName ++ "] must be a boolean."]), false)
      else if rule.type = "array" then
        ((match value with
          | .arrV _ => []
          | _ => ["Parameter [" ++ paramName ++ "] must be an array."]), false)
      else ([], false)
    let enumErrs :=
      if typeStep.2 then []
      else
        match rule.enumVals with
        | some es =>
          if es.any fun e => jsStrictEq e value then []
          else
            ["Parameter [" ++ paramName ++ "] must be one of: " ++
              String.intercalate ", " (es.map jsToString) ++ "."]
        | none => []
    typeStep.1 ++ enumErrs

/-- JS property access query[paramName]; a missing key reads undefined. -/
def jsLookup (query : List (String × JValue)) (name : String) : JValue :=
  match query.find? (fun kv => kv.1 == name) with
  | some kv => kv.2
  | none => .undefV

/-- validateParams of the npm binding: all violations over all rules are
collected (returned here instead of thrown, so the list is inspectable). -/
def npmValidateParams (rules : List (String × JRule)) (query : List (String × JValue)) :
    List String :=
  rules.flatMap fun nr => npmValidateRule nr.1 nr.2 (jsLookup query nr.1)

/-- The generated rule set of this API (src/npm/index.js line 39). -/
def npmZipRules : List (String × JRule) :=
  [("zip", { type := "string", required := true, minLength := some 5, maxLength := some 5 })]

/-! ## API key validation -/

/-- Character class of the npm API key pattern a-zA-Z0-9 and hyphen —
note: no underscore in the npm binding. -/
def npmKeyChar (c : Char) : Bool := c.isAlpha || c.isDigit || c == '-'

/-- Character class of the nuget (and java) API key pattern, which also
admits the underscore. -/
def csKeyChar (c : Char) : Bool := c.isAlpha || c.isDigit || c == '-' || c == '_'

/-- API key validation of the npm constructor (src/npm/index.js lines
12-26): falsy check, character-class check, then hyphen-stripped length
at least 32.  Returns the error message thrown, or none on success. -/
def npmValidateApiKey (key : String) : Option String :=
  if strIsEmpty key then
    some "API key must be provided as a non-empty string. Get your API key at: https://apiverve.com"
  else if !((!key.data.isEmpty) && key.data.all npmKeyChar) then
    some "Invalid API key format. API key must be alphanumeric and may contain hyphens. Get your API key at: https://apiverve.com"
  else if (key.data.filter fun c => c ≠ '-').length < 32 then
    some "Invalid API key. API key appears to be too short. Get your API key at: https://apiverve.com"
  else none

/-- ValidateApiKey of the nuget binding (ZIPDemographicsAPIClient.cs
lines 186-198): empty/whitespace check and character-class check only —
there is no minimum-length check in this binding. -/
def csValidateApiKey (key : String) : Option String :=
  if strIsEmpty key || (trimChars key.data).isEmpty then
    some "API key is required. Get your API key at: https://apiverve.com"
  else if !((!key.data.isEmpty) && key.data.all csKeyChar) then
    some "Invalid API key format. API key must be alphanumeric and may contain hyphens and underscores. Get your API key at: https://apiverve.com"
  else none

/-- API key validation of the java binding bundled in
ZIPDemographicsAPIClient.cs (lines 975-990): trim-empty check,
character-class check with underscore, then length of the hyphen- and
underscore-stripped key at least 32. -/
def javaValidateApiKey (key : String) : Option String :=
  if (trimChars key.data).isEmpty then
    some "API key must be provided. Get your API key at: https://apiverve.com"
  else if !((!key.data.isEmpty) && key.data.all csKeyChar) then
    some "Invalid API key format. API key must be alphanumeric and may contain hyphens and underscores"
  else if (key.data.filter fun c => !(c == '-' || c == '_')).length < 32 then
    some "Invalid API key. API key appears to be too short"
  else none

/-! ## URL construction and percent encoding (src/npm/index.js,
constructURL, lines 198-211) -/

/-- Characters left unescaped by encodeURIComponent:
alphanumerics and - _ . ! ~ * apostrophe ( ). -/
def uriUnreserved (c : Char) : Bool :=
  c.isAlpha || c.isDigit || c == '-' || c == '_' || c == '.' || c == '!' ||
    c == '~' || c == '*' || c == Char.ofNat 39 || c == '(' || c == ')'

/-- UTF-8 encoding of one scalar value, as a list of byte values. -/
def utf8BytesOfChar (c : Char) : List Nat :=
  let n := c.toNat
  if n < 128 then [n]
  else if n < 2048 then [192 + n / 64, 128 + n % 64]
  else if n < 65536 then [224 + n / 4096, 128 + n / 64 % 64, 128 + n % 64]
  else [240 + n / 262144, 128 + n / 4096 % 64, 128 + n / 64 % 64, 128 + n % 64]

/-- Upper-case hex digit of a value below 16, as produced by
encodeURIComponent percent escapes. -/
def hexDigitChar (n : Nat) : Char :=
  if n < 10 then Char.ofNat (48 + n) else Char.ofNat (55 + n)

/-- Model of JS encodeURIComponent: unreserved characters pass through,
every other character is replaced by percent escapes of its UTF-8 bytes. -/
def encodeURIComponent (s : String) : String :=
  ⟨s.data.flatMap fun c =>
    if uriUnreserved c then [c]
    else (utf8BytesOfChar c).flatMap fun b => ['%', hexDigitChar (b / 16), hexDigitChar (b % 16)]⟩

def npmBaseURL : String := "https://api.apiverve.com/v1/zipdemographics"

/-- constructURL of the npm binding: for a non-empty bag, append the
ampersand-joined k=v pairs with both sides percent-encoded (values are
first coerced to strings, as template interpolation does in the source). -/
def npmConstructURL (query : List (String × JValue)) : String :=
  if query.isEmpty then npmBaseURL
  else
    npmBaseURL ++ "?" ++
      String.intercalate "&"
        (query.map fun kv => encodeURIComponent kv.1 ++ "=" ++ encodeURIComponent (jsToString kv.2))

/-- Value of a hex digit character, if it is one. -/
def hexCharVal (c : Char) : Option Nat :=
  if '0' ≤ c && c ≤ '9' then some (c.toNat - 48)
  else if 'a' ≤ c && c ≤ 'f' then some (c.toNat - 87)
  else if 'A' ≤ c && c ≤ 'F' then some (c.toNat - 55)
  else none

/-- Standard percent-decoding to a byte list: a percent escape
contributes its byte, any other character contributes its UTF-8 bytes. -/
def percentDecodeBytes : List Char → Option (List Nat)
  | [] => some []
  | '%' :: h :: l :: rest =>
    match hexCharVal h, hexCharVal l, percentDecodeBytes rest with
    | some hv, some lv, some tail => some ((hv * 16 + lv) :: tail)
    | _, _, _ => none
  | '%' :: _ => none
  | c :: rest =>
    match percentDecodeBytes rest with
    | some tail => some (utf8BytesOfChar c ++ tail)
    | none => none

/-- Continuation-byte test for UTF-8 decoding. -/
def isUtf8Cont (b : Nat) : Bool := 128 ≤ b && b < 192

/-- Scalar-value validity: in range and not a surrogate. -/
def isValidScalar (n : Nat) : Bool :=
  n < 1114112 && !(55296 ≤ n && n < 57344)

/-- Standard UTF-8 decoding of a byte list back to characters. -/
def utf8DecodeBytes : List Nat → Option (List Char)
  | [] => some []
  | b :: rest =>
    if b < 128 then
      match utf8DecodeBytes rest with
      | some cs => some (Char.ofNat b :: cs)
      | none => none
    else if b < 192 then none
    else if b < 224 then
      match rest with
      | b2 :: rest2 =>
        if isUtf8Cont b2 then
          let n := (b - 192) * 64 + (b2 - 128)
          if 128 ≤ n && isValidScalar n then
            match utf8DecodeBytes rest2 with
            | some cs => some (Char.ofNat n :: cs)
            | none => none
          else none
        else none
      | _ => none
    else if b < 240 then
      match rest with
      | b2 :: b3 :: rest3 =>
        if isUtf8Cont b2 && isUtf8Cont b3 then
          let n := (b - 224) * 4096 + (b2 - 128) * 64 + (b3 - 128)
          if 2048 ≤ n && isValidScalar n then
            match utf8DecodeBytes rest3 with
            | some cs => some (Char.ofNat n :: cs)
            | none => none
          else none
        else none
      | _ => none
    else if b < 248 then
      match rest with
      | b2 :: b3 :: b4 :: rest4 =>
        if isUtf8Cont b2 && isUtf8Cont b3 && isUtf8Cont b4 then
          let n := (b - 240) * 262144 + (b2 - 128) * 4096 + (b3 - 128) * 64 + (b4 - 128)
          if 65536 ≤ n && isValidScalar n then
            match utf8DecodeBytes rest4 with
            | some cs => some (Char.ofNat n :: cs)
            | none => none
          else none
        else none
      | _ => none
    else none

/-- Standard percent-decoding of a string. -/
def percentDecode (s : String) : Option String :=
  match percentDecodeBytes s.data with
  | some bs =>
    match utf8DecodeBytes bs with
    | some cs => some ⟨cs⟩
    | none => none
  | none => none

/-- Split a character list at the first equals sign (query pair form). -/
def splitFirstEq : List Char → List Char × List Char
  | [] => ([], [])
  | c :: rest =>
    if c = '=' then ([], rest)
    else
      let p := splitFirstEq rest
      (c :: p.1, p.2)

/-- The characters after the first question mark, if any. -/
def afterFirstQm : List Char → Option (List Char)
  | [] => none
  | c :: rest => if c = '?' then some rest else afterFirstQm rest

/-- Parse a query string into percent-decoded key/value pairs. -/
def parseQueryString (qs : String) : Option (List (String × String)) :=
  (splitOnChar '&' qs.data).mapM fun part =>
    match percentDecode ⟨(splitFirstEq part).1⟩, percentDecode ⟨(splitFirstEq part).2⟩ with
    | some k, some v => some (k, v)
    | _, _ => none

/-- Parse the query string of a full URL. -/
def parseURLQuery (url : String) : Option (List (String × String)) :=
  match afterFirstQm url.data with
  | some q => parseQueryString ⟨q⟩
  | none => none

/-! ## Response envelope and the npm execute control flow
(src/npm/index.js, execute, lines 135-196) -/

/-- The deserialized response body.  The data field is opaque to the
client and modelled as an uninterpreted optional string. -/
structure Envelope where
  status : String
  error : Option String
  payload : Option String
  deriving DecidableEq

/-- The outcome of the single axios request issued by the npm execute:
a 2xx response (axios resolves), a fully received non-2xx response
(axios rejects with error.response.data set to the deserialized body),
a network-level failure carrying only a message, or a failure with
neither response nor message. -/
inductive NpmOutcome where
  | success (env : Envelope)
  | httpError (env : Envelope)
  | networkFailure (msg : String)
  | unknownFailure
  deriving DecidableEq

/-- What the npm execute throws, when it throws. -/
inductive NpmThrown where
  | validation (msg : String)
  | api (env : Envelope)
  deriving DecidableEq

/-- Observable behaviour of one npm execute call: its return value, what
it threw, the callback invocations (error argument, data argument), and
whether the axios request was issued at all. -/
structure NpmResult where
  returned : Option Envelope
  thrown : Option NpmThrown
  callbackCalls : List (Option Envelope × Option Envelope)
  networkAttempted : Bool
  deriving DecidableEq

/-- Message of the Error thrown by the npm validateParams. -/
def npmValidationFailureMessage (errors : List String) : String :=
  "Validation failed: " ++ String.intercalate " " errors ++
    " See documentation: https://docs.apiverve.com/ref/zipdemographics"

/-- The apiError object built in the catch block of the npm execute. -/
def npmApiErrorOf : NpmOutcome → Envelope
  | .success env => env
  | .httpError env => env
  | .networkFailure m => { status := "error", error := some m, payload := none }
  | .unknownFailure => { status := "error", error := some "An unknown error occurred", payload := none }

/-- execute of the npm binding (lines 135-196): validateParams runs (and
throws) before the request; on success the callback, when given,
receives (null, data) and data is returned as well; on failure with a
callback the apiError is passed as the first callback argument and
execute returns undefined without throwing; without a callback the
apiError is thrown. -/
def npmExecute (rules : List (String × JRule)) (query : List (String × JValue))
    (hasCallback : Bool) (outcome : NpmOutcome) : NpmResult :=
  let errors := npmValidateParams rules query
  if errors.isEmpty then
    match outcome with
    | .success env =>
      { returned := some env, thrown := none,
        callbackCalls := if hasCallback then [(none, some env)] else [],
        networkAttempted := true }
    | o =>
      let apiError := npmApiErrorOf o
      if hasCallback then
        { returned := none, thrown := none,
          callbackCalls := [(some apiError, none)], networkAttempted := true }
      else
        { returned := none, thrown := some (.api apiError),
          callbackCalls := [], networkAttempted := true }
  else
    { returned := none, thrown := some (.validation (npmValidationFailureMessage errors)),
      callbackCalls := [], networkAttempted := false }

/-! ## nuget validator (ZIPDemographicsAPIClient.cs, ValidateParams,
lines 374-458) -/

/-- Values a query-options property can hold in the nuget binding. -/
inductive CsValue where
  | nullV
  | str (s : String)
  | intV (n : Int)
  | doubleV (q : Rat)
  | boolV (b : Bool)
  deriving DecidableEq

/-- C# value.ToString() for the values above.  ToString on null never
runs in the validator (null values are skipped first); non-integer
double rendering is not exercised by any claim. -/
def csToString : CsValue → String
  | .nullV => ""
  | .str s => s
  | .intV n => toString n
  | .doubleV q => if q.den = 1 then toString q.num else toString q
  | .boolV b => if b then "True" else "False"

/-- The numeric coercion of the nuget validator: double/int pass
through, anything else goes through double.TryParse of its ToString. -/
def csCoerceNumber : CsValue → Option Rat
  | .doubleV q => some q
  | .intV n => some (n : Rat)
  | v => csParseDouble (csToString v)

/-- One ValidationRule of the nuget binding, field for field.  A C#
null EnumValues array is modelled as the empty list (the source guards
with EnumValues != null && Length > 0). -/
structure CsRule where
  type : String := "string"
  required : Bool := false
  min : Option Rat := none
  max : Option Rat := none
  minLength : Option Nat := none
  maxLength : Option Nat := none
  format : Option String := none
  enumValues : List String := []

/-- The required test of the nuget validator (line 399): value == null
or an empty string. -/
def csIsAbsentForRequired : CsValue → Bool
  | .nullV => true
  | .str s => strIsEmpty s
  | _ => false

/-- Format check helper: the source only checks when the format name is
a key of the pattern table, otherwise no violation. -/
def csFormatOk (fmt : String) (s : String) : Bool :=
  match formatMatches fmt s with
  | some ok => ok
  | none => true

/-- Per-rule body of the nuget ValidateParams (lines 381-452).  The
continue of the number-coercion failure skips the enum check, modelled
as in the npm validator; unlike npm, a non-string value under a string
rule is silently skipped (no violation), and integer rules have no
whole-number check. -/
def csValidateOne (paramName : String) (rule : CsRule) (value : CsValue) : List String :=
  if rule.required && csIsAbsentForRequired value then
    ["Required parameter [" ++ paramName ++ "] is missing"]
  else
    match value with
    | .nullV => []
    | v =>
      let typeStep : List String × Bool :=
        if rule.type = "integer" || rule.type = "number" then
          match csCoerceNumber v with
          | none => (["Parameter [" ++ paramName ++ "] must be a valid " ++ rule.type], true)
          | some q =>
            ((match rule.min with
              | some m =>
                if q < m then
                  ["Parameter [" ++ paramName ++ "] must be at least " ++ csToString (.doubleV m)]
                else []
              | none => []) ++
             (match rule.max with
              | some m =>
                if m < q then
                  ["Parameter [" ++ paramName ++ "] must be at most " ++ csToString (.doubleV m)]
                else []
              | none => []), false)
        else if rule.type = "string" then
          match v with
          | .str s =>
            ((match rule.minLength with
              | some n =>
                if s.length < n then
                  ["Parameter [" ++ paramName ++ "] must be at least " ++ toString n ++ " characters"]
                else []
              | none => []) ++
             (match rule.maxLength with
              | some n =>
                if n < s.length then
                  ["Parameter [" ++ paramName ++ "] must be at most " ++ toString n ++ " characters"]
                else []
              | none => []) ++
             (match rule.format with
              | some fmt =>
                if csFormatOk fmt s then []
                else ["Parameter [" ++ paramName ++ "] must be a valid " ++ fmt]
              | none => []), false)
          | _ => ([], false)
        else ([], false)
      let enumErrs :=
        if typeStep.2 then []
        else if rule.enumValues.isEmpty then []
        else if rule.enumValues.contains (csToString v) then []
        else
          ["Parameter [" ++ paramName ++ "] must be one of: " ++
            String.intercalate ", " rule.enumValues]
      typeStep.1 ++ enumErrs

/-- Reflective property lookup of the nuget validator; a null options
object or a missing property reads null. -/
def csGetValue (options : List (String × CsValue)) (name : String) : CsValue :=
  match options.find? (fun kv => kv.1 == name) with
  | some kv => kv.2
  | none => .nullV

/-- ValidateParams of the nuget binding, collecting all violations. -/
def csValidateParams (rules : List (String × CsRule)) (options : List (String × CsValue)) :
    List String :=
  rules.flatMap fun nr => csValidateOne nr.1 nr.2 (csGetValue options nr.1)

/-- The static rule table of the nuget binding (lines 68-71). -/
def csZipRules : List (String × CsRule) :=
  [("zip", { type := "string", required := true, minLength := some 5, maxLength := some 5 })]

/-! ## nuget request executor and retry loop
(ZIPDemographicsAPIClient.cs, ExecuteAsync lines 500-544,
ExecuteRequestAsync lines 549-606, IsTransientError lines 622-637,
and the legacy WebRequest path lines 644-781) -/

/-- Exceptions that can escape one request attempt.  TaskCanceledException
is a subclass of OperationCanceledException in .NET, which matters for
the catch clause ordering of the retry loop. -/
inductive CsError where
  | httpRequest (msg : String)
  | taskCanceled
  | operationCanceled
  | webException (msg : String)
  | validationEx (errors : List String)
  | other (msg : String)
  deriving DecidableEq

/-- Abstract outcome of attempting the HTTP exchange once: a fully
received response with a non-empty body (any status code — the source
never inspects the status), a fully received response with an empty
body, or the various failures to obtain a response. -/
inductive ReqOutcome where
  | ok (statusCode : Nat) (env : Envelope)
  | emptyBody (statusCode : Nat)
  | sendHttpError (msg : String)
  | sendTimeout
  | sendCancelled
  | otherError (msg : String)
  deriving DecidableEq

/-- ExecuteRequestAsync (HttpClient path): an empty body throws
HttpRequestException with the no-response message regardless of status;
a non-empty body is deserialized and returned regardless of status. -/
def csExecuteRequest : ReqOutcome → Except CsError Envelope
  | .ok _ env => .ok env
  | .emptyBody _ => .error (.httpRequest "No response from the server")
  | .sendHttpError m => .error (.httpRequest m)
  | .sendTimeout => .error .taskCanceled
  | .sendCancelled => .error .operationCanceled
  | .otherError m => .error (.other m)

/-- IsTransientError of the HttpClient path: any HttpRequestException or
TaskCanceledException is transient. -/
def isTransientError : CsError → Bool
  | .httpRequest _ => true
  | .taskCanceled => true
  | _ => false

/-- The catch (OperationCanceledException) clause of the retry loop; it
also catches TaskCanceledException (a subclass). -/
def isOperationCanceled : CsError → Bool
  | .taskCanceled => true
  | .operationCanceled => true
  | _ => false

instance {ε α : Type} [DecidableEq ε] [DecidableEq α] : DecidableEq (Except ε α)
  | .ok a, .ok b =>
    if h : a = b then .isTrue (by rw [h]) else .isFalse (by intro hh; cases hh; exact h rfl)
  | .ok _, .error _ => .isFalse (by intro hh; cases hh)
  | .error _, .ok _ => .isFalse (by intro hh; cases hh)
  | .error a, .error b =>
    if h : a = b then .isTrue (by rw [h]) else .isFalse (by intro hh; cases hh; exact h rfl)

/-- Observable behaviour of one retry-loop run: its final result, how
many times Task.Delay(retryDelayMs) was awaited, and how many request
attempts were issued. -/
structure RunResult where
  result : Except CsError Envelope
  sleeps : Nat
  requests : Nat
  deriving DecidableEq

/-- The while (attempt <= maxRetries) retry loop of ExecuteAsync (lines
502-543), in the order of the source: sleep before every attempt except
the first; rethrow cancellations immediately; otherwise record the
exception, increment attempt, stop when retries are exhausted, stop on a
non-transient error, else loop.  The fuel argument counts the remaining
loop iterations permitted by the loop condition; it starts at
maxRetries + 1 with attempt 0, so the zero-fuel branch (loop condition
false, final throw of lastException) is reached exactly when attempt
exceeds maxRetries. -/
def retryLoopAux (trans cancel : CsError → Bool) (dflt : CsError)
    (req : Nat → Except CsError Envelope) (maxRetries : Nat) :
    Nat → Nat → Option CsError → RunResult
  | 0, _, lastEx => ⟨.error (lastEx.getD dflt), 0, 0⟩
  | fuel + 1, attempt, lastEx =>
    let s := if 0 < attempt then 1 else 0
    match req attempt with
    | .ok env => ⟨.ok env, s, 1⟩
    | .error ex =>
      if cancel ex then ⟨.error ex, s, 1⟩
      else if maxRetries < attempt + 1 then ⟨.error ex, s, 1⟩
      else if trans ex then
        let r := retryLoopAux trans cancel dflt req maxRetries fuel (attempt + 1) (some ex)
        ⟨r.result, s + r.sleeps, 1 + r.requests⟩
      else ⟨.error ex, s, 1⟩

/-- The public ExecuteAsync retry loop over an attempt-indexed oracle of
request results. -/
def csExecuteAsyncRun (req : Nat → Except CsError Envelope) (maxRetries : Nat) : RunResult :=
  retryLoopAux isTransientError isOperationCanceled (.httpRequest "Request failed")
    req maxRetries (maxRetries + 1) 0 none

/-- The public ExecuteAsync(options, cancellationToken) entry point of
the nuget binding: it enters the retry loop directly — the rules and
options take no part, because this path never calls ValidateParams. -/
def csExecuteAsyncModel (rules : List (String × CsRule)) (options : List (String × CsValue))
    (req : Nat → ReqOutcome) (maxRetries : Nat) : RunResult :=
  csExecuteAsyncRun (fun n => csExecuteRequest (req n)) maxRetries

/-- The synchronous Execute entry point (lines 468-478): ValidateParams
first (throwing ValidationException on any violation, with no request
issued), then the async path. -/
def csExecute (rules : List (String × CsRule)) (options : List (String × CsValue))
    (req : Nat → ReqOutcome) (maxRetries : Nat) : RunResult :=
  match csValidateParams rules options with
  | [] => csExecuteAsyncModel rules options req maxRetries
  | errs => ⟨.error (.validationEx errs), 0, 0⟩

/-- IsTransientWebError of the legacy WebRequest path: only
WebException is transient. -/
def isTransientWebError : CsError → Bool
  | .webException _ => true
  | _ => false

/-- One attempt of the legacy WebRequest path: a WebException carrying a
response has its error body read and returned like a success; an empty
body throws a plain Exception (not a WebException); transport failures
surface as WebException. -/
def csWebRequestOnce : ReqOutcome → Except CsError Envelope
  | .ok _ env => .ok env
  | .emptyBody _ => .error (.other "No response from the server")
  | .sendHttpError m => .error (.webException m)
  | .sendTimeout => .error (.webException "The operation has timed out")
  | .sendCancelled => .error (.other "cancelled")
  | .otherError m => .error (.other m)

/-- ExecuteWithWebRequest (lines 644-682): the same loop shape with the
WebRequest transient classification and no cancellation clause. -/
def csExecuteWithWebRequest (req : Nat → ReqOutcome) (maxRetries : Nat) : RunResult :=
  retryLoopAux isTransientWebError (fun _ => false) (.other "Request failed")
    (fun n => csWebRequestOnce (req n)) maxRetries (maxRetries + 1) 0 none

/-! ## java response handling (handleResponse, lines 1118-1148 of
ZIPDemographicsAPIClient.cs) -/

/-- handleResponse of the java binding: the body is read (from the
error stream when the status is not 200) and then any non-200 status is
thrown as an APIException carrying the status and body; only a 200
response returns the body as an APIResponse. -/
def handleResponse (statusCode : Nat) (body : String) : Except String String :=
  if statusCode ≠ 200 then .error ("HTTP error " ++ toString statusCode ++ ": " ++ body)
  else .ok body

/-! ## Helper lemmas about the retry loop -/

/-- Unfolding equation for a positive-fuel step of the retry loop. -/
theorem retryLoopAux_succ (trans cancel : CsError → Bool) (dflt : CsError)
    (req : Nat → Except CsError Envelope) (maxRetries fuel attempt : Nat)
    (lastEx : Option CsError) :
    retryLoopAux trans cancel dflt req maxRetries (fuel + 1) attempt lastEx =
      (match req attempt with
       | .ok env => ⟨.ok env, if 0 < attempt then 1 else 0, 1⟩
       | .error ex =>
         if cancel ex then ⟨.error ex, if 0 < attempt then 1 else 0, 1⟩
         else if maxRetries < attempt + 1 then ⟨.error ex, if 0 < attempt then 1 else 0, 1⟩
         else if trans ex then
           ⟨(retryLoopAux trans cancel dflt req maxRetries fuel (attempt + 1) (some ex)).result,
            (if 0 < attempt then 1 else 0) +
              (retryLoopAux trans cancel dflt req maxRetries fuel (attempt + 1) (some ex)).sleeps,
            1 + (retryLoopAux trans cancel dflt req maxRetries fuel (attempt + 1) (some ex)).requests⟩
         else ⟨.error ex, if 0 < attempt then 1 else 0, 1⟩) := rfl

/-- Unfolding equation for the zero-fuel branch. -/
theorem retryLoopAux_zero (trans cancel : CsError → Bool) (dflt : CsError)
    (req : Nat → Except CsError Envelope) (maxRetries attempt : Nat)
    (lastEx : Option CsError) :
    retryLoopAux trans cancel dflt req maxRetries 0 attempt lastEx =
      ⟨.error (lastEx.getD dflt), 0, 0⟩ := rfl

/-- Sleep accounting of the retry loop: starting with positive fuel, the
run sleeps once before every request except that no sleep precedes a
first attempt (attempt = 0). -/
theorem retryLoopAux_sleeps (trans cancel : CsError → Bool) (dflt : CsError)
    (req : Nat → Except CsError Envelope) (maxRetries : Nat) :
    ∀ (fuel attempt : Nat) (lastEx : Option CsError),
      (retryLoopAux trans cancel dflt req maxRetries (fuel + 1) attempt lastEx).sleeps + 1 =
        (retryLoopAux trans cancel dflt req maxRetries (fuel + 1) attempt lastEx).requests +
          (if 0 < attempt then 1 else 0) := by
  intro fuel
  induction fuel with
  | zero =>
    intro attempt lastEx
    rw [retryLoopAux_succ]
    cases hreq : req attempt with
    | ok env =>
      dsimp only
      generalize (if 0 < attempt then (1 : Nat) else 0) = s
      omega
    | error ex =>
      dsimp only
      by_cases hc : cancel ex
      · rw [if_pos hc]
        dsimp only
        generalize (if 0 < attempt then (1 : Nat) else 0) = s
        omega
      · rw [if_neg hc]
        by_cases hm : maxRetries < attempt + 1
        · rw [if_pos hm]
          dsimp only
          generalize (if 0 < attempt then (1 : Nat) else 0) = s
          omega
        · rw [if_neg hm]
          by_cases ht : trans ex
          · rw [if_pos ht, retryLoopAux_zero]
            dsimp only
            generalize (if 0 < attempt then (1 : Nat) else 0) = s
            omega
          · rw [if_neg ht]
            dsimp only
            generalize (if 0 < attempt then (1 : Nat) else 0) = s
            omega
  | succ n ih =>
    intro attempt lastEx
    rw [retryLoopAux_succ]
    cases hreq : req attempt with
    | ok env =>
      dsimp only
      generalize (if 0 < attempt then (1 : Nat) else 0) = s
      omega
    | error ex =>
      dsimp only
      by_cases hc : cancel ex
      · rw [if_pos hc]
        dsimp only
        generalize (if 0 < attempt then (1 : Nat) else 0) = s
        omega
      · rw [if_neg hc]
        by_cases hm : maxRetries < attempt + 1
        · rw [if_pos hm]
          dsimp only
          generalize (if 0 < attempt then (1 : Nat) else 0) = s
          omega
        · rw [if_neg hm]
          by_cases ht : trans ex
          · rw [if_pos ht]
            have hr := ih (attempt + 1) (some ex)
            rw [if_pos (Nat.succ_pos attempt)] at hr
            dsimp only
            generalize (if 0 < attempt then (1 : Nat) else 0) = s
            omega
          · rw [if_neg ht]
            dsimp only
            generalize (if 0 < attempt then (1 : Nat) else 0) = s
            omega

/-- Every positive-fuel run issues at least one request. -/
theorem retryLoopAux_requests_pos (trans cancel : CsError → Bool) (dflt : CsError)
    (req : Nat → Except CsError Envelope) (maxRetries fuel attempt : Nat)
    (lastEx : Option CsError) :
    1 ≤ (retryLoopAux trans cancel dflt req maxRetries (fuel + 1) attempt lastEx).requests := by
  rw [retryLoopAux_succ]
  cases hreq : req attempt with
  | ok env => simp
  | error ex =>
    by_cases hc : cancel ex <;> by_cases hm : maxRetries < attempt + 1 <;>
      by_cases ht : trans ex <;> simp [hc, hm, ht]

/-- A run over an oracle that always fails with the same transient,
non-cancellation error consumes every remaining attempt: starting at a
given attempt with matching fuel, it issues k + 1 requests and sleeps
before each one except a first attempt. -/
theorem retryLoopAux_const_transient (trans cancel : CsError → Bool) (dflt : CsError)
    (e : CsError) (ht : trans e = true) (hc : cancel e = false) :
    ∀ (k attempt : Nat) (lastEx : Option CsError) (maxRetries : Nat),
      maxRetries = attempt + k →
      retryLoopAux trans cancel dflt (fun _ => .error e) maxRetries (k + 1) attempt lastEx =
        ⟨.error e, k + (if 0 < attempt then 1 else 0), k + 1⟩ := by
  intro k
  induction k with
  | zero =>
    intro attempt lastEx maxRetries hmr
    subst hmr
    rw [retryLoopAux_succ]
    simp [hc, ht]
  | succ n ih =>
    intro attempt lastEx maxRetries hmr
    subst hmr
    have hlt : ¬ (attempt + (n + 1) < attempt + 1) := by omega
    have hrec := ih (attempt + 1) (some e) (attempt + (n + 1)) (by omega)
    rw [retryLoopAux_succ]
    simp only [hc, ht, hlt, if_true, if_false, Bool.false_eq_true, ite_false, ite_true]
    rw [hrec]
    simp [Nat.add_comm, Nat.add_assoc, Nat.add_left_comm]

/-- A first attempt that fails with a non-transient, non-cancellation
error stops the loop at once: one request, no sleep. -/
theorem retryLoopAux_first_stop (trans cancel : CsError → Bool) (dflt : CsError)
    (req : Nat → Except CsError Envelope) (e : CsError)
    (h0 : req 0 = .error e) (ht : trans e = false) (hc : cancel e = false)
    (maxRetries fuel : Nat) :
    retryLoopAux trans cancel dflt req maxRetries (fuel + 1) 0 none = ⟨.error e, 0, 1⟩ := by
  rw [retryLoopAux_succ, h0]
  simp [hc, ht]

/-- A first attempt that succeeds returns its envelope at once: one
request, no sleep. -/
theorem retryLoopAux_first_ok (trans cancel : CsError → Bool) (dflt : CsError)
    (req : Nat → Except CsError Envelope) (env : Envelope)
    (h0 : req 0 = .ok env) (maxRetries fuel : Nat) :
    retryLoopAux trans cancel dflt req maxRetries (fuel + 1) 0 none = ⟨.ok env, 0, 1⟩ := by
  rw [retryLoopAux_succ, h0]
  simp

/-! ## Helper lemmas about trimming -/

theorem dropWhile_eq_self_of_not (p : Char → Bool) (cs : List Char)
    (h : ∀ c ∈ cs, p c = false) : cs.dropWhile p = cs := by
  cases cs with
  | nil => rfl
  | cons a tl => simp [List.dropWhile_cons, h a (by simp)]

/-- Trimming a list of non-whitespace characters changes nothing. -/
theorem trimChars_eq_self (cs : List Char) (h : ∀ c ∈ cs, isWsChar c = false) :
    trimChars cs = cs := by
  unfold trimChars
  rw [dropWhile_eq_self_of_not _ _ h,
    dropWhile_eq_self_of_not _ _ (by intro c hc; exact h c (by simpa using hc)),
    List.reverse_reverse]

/-- Characters of the nuget API key class are not whitespace. -/
theorem csKeyChar_not_ws (c : Char) (h : csKeyChar c = true) : isWsChar c = false := by
  by_contra hw
  simp only [Bool.not_eq_false] at hw
  simp only [isWsChar, Bool.or_eq_true, beq_iff_eq] at hw
  rcases hw with ((h1 | h1) | h1) | h1 <;> subst h1 <;> exact absurd h (by decide)

/-! ## Claim theorems -/

/-- C1 counterexample: the claim says every execution path (synchronous
and asynchronous alike) runs the validator before any network I/O and
surfaces validation failures without a request.  In the nuget binding
the public asynchronous ExecuteAsync path never calls ValidateParams:
with an empty options bag the full rule set reports the missing required
zip parameter, yet ExecuteAsync issues a request and returns the
response envelope instead of surfacing a validation failure. -/
theorem C1_counterexample :
    csValidateParams csZipRules [] = ["Required parameter [zip] is missing"] ∧
    (csExecuteAsyncModel csZipRules []
        (fun _ => .ok 200 { status := "ok", error := none, payload := some "d" }) 0).requests = 1 ∧
    (csExecuteAsyncModel csZipRules []
        (fun _ => .ok 200 { status := "ok", error := none, payload := some "d" }) 0).result =
      .ok { status := "ok", error := none, payload := some "d" } := by
  decide

/-- C1 amended: the npm execute and the nuget synchronous Execute run
the validator against the full rule set before any network I/O, and a
validation failure is surfaced (thrown) with no network request being
made; the nuget asynchronous ExecuteAsync path, however, always issues
at least one request without running the validator. -/
theorem C1_validation_before_network
    (rules : List (String × JRule)) (query : List (String × JValue)) (cb : Bool)
    (o : NpmOutcome) (crules : List (String × CsRule)) (opts : List (String × CsValue))
    (req : Nat → ReqOutcome) (maxR : Nat)
    (hnpm : npmValidateParams rules query ≠ [])
    (hcs : csValidateParams crules opts ≠ []) :
    (npmExecute rules query cb o).networkAttempted = false ∧
    (npmExecute rules query cb o).thrown =
      some (.validation (npmValidationFailureMessage (npmValidateParams rules query))) ∧
    csExecute crules opts req maxR =
      ⟨.error (.validationEx (csValidateParams crules opts)), 0, 0⟩ ∧
    1 ≤ (csExecuteAsyncModel crules opts req maxR).requests := by
  have he : (npmValidateParams rules query).isEmpty = false := by
    cases h : npmValidateParams rules query with
    | nil => exact absurd h hnpm
    | cons a tl => rfl
  refine ⟨?_, ?_, ?_, ?_⟩
  · simp [npmExecute, he]
  · simp [npmExecute, he]
  · cases h : csValidateParams crules opts with
    | nil => exact absurd h hcs
    | cons a tl => simp [csExecute, h]
  · exact retryLoopAux_requests_pos isTransientError isOperationCanceled
      (.httpRequest "Request failed") (fun n => csExecuteRequest (req n)) maxR maxR 0 none

/-- C1 witness: the amended statement instantiated at empty parameter
bags, which violate the required-zip rule in both bindings. -/
theorem C1_validation_before_network_witness :
    npmValidateParams npmZipRules [] ≠ [] ∧
    csValidateParams csZipRules [] ≠ [] ∧
    (npmExecute npmZipRules [] true .unknownFailure).networkAttempted = false ∧
    csExecute csZipRules [] (fun _ => .sendTimeout) 2 =
      ⟨.error (.validationEx (csValidateParams csZipRules [])), 0, 0⟩ := by
  refine ⟨by decide, by decide, ?_, ?_⟩
  · exact (C1_validation_before_network npmZipRules [] true .unknownFailure csZipRules []
      (fun _ => .sendTimeout) 2 (by decide) (by decide)).1
  · exact (C1_validation_before_network npmZipRules [] true .unknownFailure csZipRules []
      (fun _ => .sendTimeout) 2 (by decide) (by decide)).2.2.1

/-- C2 counterexample: the claim says an empty response body is a fatal
error that is never retried when retries remain.  In the nuget
HttpClient path the empty body raises HttpRequestException, which
IsTransientError classifies as transient: with maxRetries = 1 and an
always-empty-body server, two requests are issued (one retry, one
sleep), so the empty-body error was retried. -/
theorem C2_counterexample :
    isTransientError (.httpRequest "No response from the server") = true ∧
    csExecuteAsyncModel csZipRules [("zip", .str "90210")] (fun _ => .emptyBody 200) 1 =
      ⟨.error (.httpRequest "No response from the server"), 1, 2⟩ := by
  decide

/-- C2 amended: an empty response body surfaces as the no-response
error, but in the HttpClient path it is an HttpRequestException,
classified transient and retried until retries are exhausted (maxRetries
+ 1 requests in total); only the legacy WebRequest path raises a plain
exception for it, which IsTransientWebError does not retry (exactly one
request, no sleep). -/
theorem C2_empty_response_retry (maxR : Nat) :
    csExecuteAsyncModel csZipRules [("zip", .str "90210")] (fun _ => .emptyBody 200) maxR =
      ⟨.error (.httpRequest "No response from the server"), maxR, maxR + 1⟩ ∧
    csExecuteWithWebRequest (fun _ => .emptyBody 200) maxR =
      ⟨.error (.other "No response from the server"), 0, 1⟩ := by
  constructor
  · show retryLoopAux isTransientError isOperationCanceled (.httpRequest "Request failed")
      (fun _ => .error (.httpRequest "No response from the server")) maxR (maxR + 1) 0 none = _
    have h := retryLoopAux_const_transient isTransientError isOperationCanceled
      (.httpRequest "Request failed") (.httpRequest "No response from the server") rfl rfl
      maxR 0 none maxR (by omega)
    simpa using h
  · show retryLoopAux isTransientWebError (fun _ => false) (.other "Request failed")
      (fun _ => .error (.other "No response from the server")) maxR (maxR + 1) 0 none = _
    exact retryLoopAux_first_stop _ _ _ _ (.other "No response from the server")
      rfl rfl rfl maxR maxR

/-- C3 counterexample: the claim says every fully received response,
including non-2xx, has its envelope returned to the caller, not thrown.
The java handleResponse throws an APIException on any non-200 status,
and the npm execute without a callback throws the deserialized body of a
non-2xx response rather than returning it. -/
theorem C3_counterexample :
    handleResponse 500 "Internal Server Error" =
      .error "HTTP error 500: Internal Server Error" ∧
    (npmExecute npmZipRules [("zip", .str "90210")] false
        (.httpError { status := "error", error := some "Bad Request", payload := none })).thrown =
      some (.api { status := "error", error := some "Bad Request", payload := none }) ∧
    (npmExecute npmZipRules [("zip", .str "90210")] false
        (.httpError { status := "error", error := some "Bad Request", payload := none })).returned =
      none := by
  decide

/-- C3 amended: only the nuget HttpClient path treats every fully
received response as a completed outcome — one request, no retry, the
envelope returned whatever the status code.  In the npm binding a
non-2xx response surfaces as an error (thrown without a callback, or
passed as the callback error argument), not as the return value; in the
java binding a non-200 status is thrown as an APIException.  No binding
retries a fully received response. -/
theorem C3_completed_response_handling (sc : Nat) (env : Envelope) (maxR : Nat) (body : String)
    (hsc : sc ≠ 200) :
    csExecuteAsyncModel csZipRules [("zip", .str "90210")] (fun _ => .ok sc env) maxR =
      ⟨.ok env, 0, 1⟩ ∧
    npmExecute npmZipRules [("zip", .str "90210")] false (.httpError env) =
      { returned := none, thrown := some (.api env), callbackCalls := [],
        networkAttempted := true } ∧
    npmExecute npmZipRules [("zip", .str "90210")] true (.httpError env) =
      { returned := none, thrown := none, callbackCalls := [(some env, none)],
        networkAttempted := true } ∧
    handleResponse sc body = .error ("HTTP error " ++ toString sc ++ ": " ++ body) := by
  have he : (npmValidateParams npmZipRules [("zip", JValue.str "90210")]).isEmpty = true := by
    decide
  refine ⟨?_, ?_, ?_, ?_⟩
  · show retryLoopAux isTransientError isOperationCanceled (.httpRequest "Request failed")
      (fun _ => .ok env) maxR (maxR + 1) 0 none = _
    exact retryLoopAux_first_ok _ _ _ _ env rfl maxR maxR
  · simp [npmExecute, he, npmApiErrorOf]
  · simp [npmExecute, he, npmApiErrorOf]
  · simp [handleResponse, hsc]

/-- C3 witness: the amended statement at a 500 status. -/
theorem C3_completed_response_handling_witness :
    (500 : Nat) ≠ 200 ∧
    handleResponse 500 "x" = .error ("HTTP error " ++ toString (500 : Nat) ++ ": " ++ "x") :=
  ⟨by decide, (C3_completed_response_handling 500 ⟨"ok", none, none⟩ 0 "x" (by decide)).2.2.2⟩

/-- C4 confirmed: over the HttpClient retry loop, for every maxRetries
setting and every oracle of attempt outcomes, the number of retry-delay
sleeps is exactly the number of requests minus one — no sleep before the
first attempt, one sleep before each retry.  In particular, transient
failures on attempts 1 and 2 followed by success on attempt 3 with
maxRetries = 3 return the successful envelope after exactly two sleeps
and three requests, and a permanent (non-transient) failure on the first
attempt surfaces with no sleep at all. -/
theorem C4_retry_sleep_discipline :
    (∀ (maxR : Nat) (req : Nat → Except CsError Envelope),
      (csExecuteAsyncRun req maxR).sleeps + 1 = (csExecuteAsyncRun req maxR).requests) ∧
    csExecuteAsyncModel csZipRules [("zip", .str "90210")]
      (fun n => match n with
        | 0 => .sendHttpError "connection reset"
        | 1 => .sendHttpError "connection reset"
        | _ => .ok 200 { status := "ok", error := none, payload := some "demographics" }) 3 =
      ⟨.ok { status := "ok", error := none, payload := some "demographics" }, 2, 3⟩ ∧
    csExecuteAsyncModel csZipRules [("zip", .str "90210")] (fun _ => .otherError "permanent") 3 =
      ⟨.error (.other "permanent"), 0, 1⟩ := by
  refine ⟨?_, by decide, by decide⟩
  intro maxR req
  have h := retryLoopAux_sleeps isTransientError isOperationCanceled
    (.httpRequest "Request failed") req maxR maxR 0 none
  norm_num at h
  exact h

/-- C5 counterexample: the claim says the enum check is applied
regardless of whether the type check passed or failed.  In the npm
validator a number-type coercion failure continues to the next rule:
with a non-empty enum list not containing the value, only the type
violation is emitted and no enum violation appears. -/
theorem C5_counterexample :
    npmValidateRule "p"
        { type := "number", required := true, enumVals := some [.str "1", .str "2"] }
        (.str "abc") =
      ["Parameter [p] must be a valid number."] := by
  decide

/-- C5 amended: the enum check runs only when the type check did not
short-circuit with a continue.  When it runs (here: a string rule over a
present string value), it emits a violation exactly when the value is
not a strict-equality member of the enum list; when the type coercion
fails (a number rule over a non-numeric string), both the npm and nuget
validators emit only the type violation and skip the enum check
entirely, whatever the enum list. -/
theorem C5_enum_check_behavior (s : String) (es : List JValue) (name : String) :
    npmValidateRule name { type := "string", required := false, enumVals := some es } (.str s) =
      (if es.any fun e => jsStrictEq e (.str s) then []
       else
         ["Parameter [" ++ name ++ "] must be one of: " ++
           String.intercalate ", " (es.map jsToString) ++ "."]) ∧
    npmValidateRule name { type := "number", required := false, enumVals := some es }
        (.str "abc") =
      ["Parameter [" ++ name ++ "] must be a valid " ++ "number" ++ "."] ∧
    csValidateOne name { type := "number", required := false, enumValues := es.map jsToString }
        (.str "abc") =
      ["Parameter [" ++ name ++ "] must be a valid " ++ "number"] := by
  refine ⟨?_, ?_, ?_⟩ <;> rfl

/-- C6 counterexample: the claim says missing, undefined/null and the
empty string all count as absent, so a non-required rule is skipped
entirely when the value is the empty string.  In both validators the
empty string only counts as absent for the required check: a present
empty string under a non-required string rule with minLength 5 yields a
length violation instead of being skipped. -/
theorem C6_counterexample :
    npmValidateRule "zip" { type := "string", required := false, minLength := some 5 }
        (.str "") =
      ["Parameter [zip] must be at least 5 characters."] ∧
    csValidateOne "zip" { type := "string", required := false, minLength := some 5 }
        (.str "") =
      ["Parameter [zip] must be at least 5 characters"] := by
  decide

/-- C6 amended: a non-required rule is skipped entirely (no checks, no
violations) when the value is undefined or null (npm) or null (nuget);
the empty string counts as absent only for the required check, and a
present empty string under a non-required rule is still validated. -/
theorem C6_absent_skip (name : String) (rule : JRule) (crule : CsRule)
    (h1 : rule.required = false) (h2 : crule.required = false) :
    npmValidateRule name rule .undefV = [] ∧
    npmValidateRule name rule .nullV = [] ∧
    csValidateOne name crule .nullV = [] := by
  refine ⟨?_, ?_, ?_⟩
  · simp [npmValidateRule, jsIsAbsent, jsIsNullish, h1]
  · simp [npmValidateRule, jsIsAbsent, jsIsNullish, h1]
  · simp [csValidateOne, csIsAbsentForRequired, h2]

/-- C6 witness: the amended statement at a concrete non-required rule. -/
theorem C6_absent_skip_witness :
    ({ type := "string", required := false, minLength := some 5 : JRule }).required = false ∧
    npmValidateRule "zip" { type := "string", required := false, minLength := some 5 } .undefV =
      [] :=
  ⟨rfl, (C6_absent_skip "zip" { type := "string", required := false, minLength := some 5 }
    { type := "string", required := false, minLength := some 5 } rfl rfl).1⟩

/-- C7 counterexample: the claim says construction succeeds exactly when
the key matches the character class with underscore and its stripped
form has at least 32 characters, so in particular the key abc fails with
a too-short error.  The nuget ValidateApiKey has no length check at all
and accepts abc; and the npm pattern rejects the underscore, so a
33-character key of 32 letters and one underscore — accepted by the
claimed rule — fails the npm format check. -/
theorem C7_counterexample :
    csValidateApiKey "abc" = none ∧
    npmValidateApiKey "aaaaaaaaaaaaaaaaaaaaaaaaaaaaaaaa_" =
      some "Invalid API key format. API key must be alphanumeric and may contain hyphens. Get your API key at: https://apiverve.com" := by
  decide

/-- C7 amended: the npm (and java) binding rejects abc with the
too-short error and accepts a 32-hex-character key; the nuget binding
checks only non-emptiness and the character class a-zA-Z0-9_- with no
minimum length, so every non-empty key over that class — including abc —
passes its construction-time validation. -/
theorem C7_api_key_validation (key : String)
    (hne : key.data ≠ []) (hchars : key.data.all csKeyChar = true) :
    csValidateApiKey key = none ∧
    npmValidateApiKey "abc" =
      some "Invalid API key. API key appears to be too short. Get your API key at: https://apiverve.com" ∧
    javaValidateApiKey "abc" = some "Invalid API key. API key appears to be too short" ∧
    npmValidateApiKey "a1b2c3d4e5f6a7b8c9d0e1f2a3b4c5d6" = none ∧
    csValidateApiKey "a1b2c3d4e5f6a7b8c9d0e1f2a3b4c5d6" = none := by
  refine ⟨?_, by decide, by decide, by decide, by decide⟩
  have htrim : trimChars key.data = key.data :=
    trimChars_eq_self _ fun c hc =>
      csKeyChar_not_ws c (List.all_eq_true.mp hchars c hc)
  have hne2 : key.data.isEmpty = false := by
    cases h : key.data with
    | nil => exact absurd h hne
    | cons a tl => rfl
  unfold csValidateApiKey
  rw [htrim]
  simp [strIsEmpty, hne2, hchars]

/-- C7 witness: the amended statement at a short but well-formed key. -/
theorem C7_api_key_validation_witness :
    "apvkey123".data ≠ [] ∧ "apvkey123".data.all csKeyChar = true ∧
    csValidateApiKey "apvkey123" = none :=
  ⟨by decide, by decide, (C7_api_key_validation "apvkey123" (by decide) (by decide)).1⟩

/-- C8 confirmed: against the generated zip rule (string, required,
minLength 5, maxLength 5), the value 9021 yields exactly the
at-least-5-characters violation, 90210 passes with no violations, and
902100 yields exactly the at-most-5-characters violation. -/
theorem C8_zip_length_validation :
    npmValidateParams npmZipRules [("zip", .str "9021")] =
      ["Parameter [zip] must be at least 5 characters."] ∧
    npmValidateParams npmZipRules [("zip", .str "90210")] = [] ∧
    npmValidateParams npmZipRules [("zip", .str "902100")] =
      ["Parameter [zip] must be at most 5 characters."] ∧
    csValidateParams csZipRules [("zip", .str "9021")] =
      ["Parameter [zip] must be at least 5 characters"] ∧
    csValidateParams csZipRules [("zip", .str "90210")] = [] ∧
    csValidateParams csZipRules [("zip", .str "902100")] =
      ["Parameter [zip] must be at most 5 characters"] := by
  decide

/-- C9 confirmed: building the GET URL from the bag zip = 90210, taking
its query string and percent-decoding the pairs recovers exactly the
original bag; percent-encoding and standard percent-decoding are inverse
on both the key and the value of this bag. -/
theorem C9_url_roundtrip :
    parseURLQuery (npmConstructURL [("zip", .str "90210")]) = some [("zip", "90210")] ∧
    percentDecode (encodeURIComponent "zip") = some "zip" ∧
    percentDecode (encodeURIComponent "90210") = some "90210" := by
  decide

/-- C10 confirmed: in the npm binding, once validation passes, a failed
request with a callback never throws — the apiError becomes the first
callback argument and execute returns undefined; without a callback the
apiError is thrown; and on success the callback receives (null, data)
while the same data is also returned. -/
theorem C10_callback_semantics (query : List (String × JValue)) (env : Envelope) (m : String)
    (hvalid : npmValidateParams npmZipRules query = []) :
    npmExecute npmZipRules query true (.httpError env) =
      { returned := none, thrown := none, callbackCalls := [(some env, none)],
        networkAttempted := true } ∧
    npmExecute npmZipRules query true (.networkFailure m) =
      { returned := none, thrown := none,
        callbackCalls := [(some { status := "error", error := some m, payload := none }, none)],
        networkAttempted := true } ∧
    npmExecute npmZipRules query true (.success env) =
      { returned := some env, thrown := none, callbackCalls := [(none, some env)],
        networkAttempted := true } ∧
    npmExecute npmZipRules query false (.httpError env) =
      { returned := none, thrown := some (.api env), callbackCalls := [],
        networkAttempted := true } := by
  have he : (npmValidateParams npmZipRules query).isEmpty = true := by rw [hvalid]; rfl
  refine ⟨?_, ?_, ?_, ?_⟩ <;> simp [npmExecute, he, npmApiErrorOf]

/-- C10 witness: the statement at the valid bag zip = 90210. -/
theorem C10_callback_semantics_witness :
    npmValidateParams npmZipRules [("zip", JValue.str "90210")] = [] ∧
    npmExecute npmZipRules [("zip", JValue.str "90210")] true
        (.success { status := "ok", error := none, payload := some "data" }) =
      { returned := some { status := "ok", error := none, payload := some "data" },
        thrown := none,
        callbackCalls := [(none, some { status := "ok", error := none, payload := some "data" })],
        networkAttempted := true } :=
  ⟨by decide, (C10_callback_semantics [("zip", JValue.str "90210")]
    { status := "ok", error := none, payload := some "data" } "m" (by decide)).2.2.1⟩

end ZipDemo
